import Mathlib

/-!
Verification of the gesture-interpretation core of the air-canvas repository
(src/utils/gestureRecognition.ts): the static pose classifier, the trajectory
accumulator with its shape fitter, and the temporal gesture stabilizer.

Numbers: the source computes with JavaScript doubles; the embedding uses exact
rationals.  The classifier only ever uses Math.sqrt inside comparisons of
distances (with each other or with the positive constant 0.05); since sqrt is
strictly monotone on nonnegatives these comparisons are embedded as the
corresponding comparisons of squared distances.  The shape fitter genuinely
sums square roots, so its distance values live in the reals.  The source's
boolean-valued helpers are embedded as decidable propositions.
-/

namespace AirCanvas

/-- One hand keypoint as delivered by the detector (useHandTracking.ts,
interface HandLandmark: normalized x, y and depth z). -/
structure HandLandmark where
  x : ℚ
  y : ℚ
  z : ℚ
deriving DecidableEq

/-- A normalized 2D cursor position. -/
structure Point2D where
  x : ℚ
  y : ℚ
deriving DecidableEq

/-- The closed enumeration of gesture kinds
(GestureResult.type in the source). -/
inductive GestureType where
  | draw
  | erase
  | menu
  | none
  | line
  | rectangle
  | circle
deriving DecidableEq, Fintype

/-- interface GestureResult. -/
structure GestureResult where
  type : GestureType
  position : Point2D
  confidence : ℚ
deriving DecidableEq

instance : Inhabited GestureResult :=
  ⟨⟨GestureType.none, ⟨0, 0⟩, 0⟩⟩

-- The LANDMARKS index table.
def THUMB_TIP : ℕ := 4
def INDEX_FINGER_TIP : ℕ := 8
def INDEX_FINGER_PIP : ℕ := 6
def MIDDLE_FINGER_TIP : ℕ := 12
def MIDDLE_FINGER_PIP : ℕ := 10
def RING_FINGER_TIP : ℕ := 16
def PINKY_TIP : ℕ := 20
def WRIST : ℕ := 0

/-- landmarks[i].  JavaScript indexing out of range yields undefined; every
read below is guarded by the length check, so a total default keeps the
embedding faithful on the guarded paths. -/
def lmAt (landmarks : List HandLandmark) (i : ℕ) : HandLandmark :=
  landmarks.getD i ⟨0, 0, 0⟩

/-- Squared Euclidean distance between two landmarks.  The source's
calculateDistance is the square root of this; the classifier only compares
distances, so the embedding compares squares (0.05 squared is 1/400). -/
def calculateDistanceSq (point1 point2 : HandLandmark) : ℚ :=
  (point1.x - point2.x) * (point1.x - point2.x) +
    (point1.y - point2.y) * (point1.y - point2.y)

/-- isFingerExtended: the tip is farther from the wrist than the PIP joint
(squared-distance form of tipToWrist > pipToWrist). -/
def isFingerExtended (landmarks : List HandLandmark) (tipIndex pipIndex : ℕ) : Prop :=
  calculateDistanceSq (lmAt landmarks tipIndex) (lmAt landmarks WRIST) >
    calculateDistanceSq (lmAt landmarks pipIndex) (lmAt landmarks WRIST)

instance (landmarks : List HandLandmark) (tipIndex pipIndex : ℕ) :
    Decidable (isFingerExtended landmarks tipIndex pipIndex) :=
  inferInstanceAs (Decidable (_ < _))

/-- isDrawingGesture: index extended, middle and ring not extended. -/
def isDrawingGesture (landmarks : List HandLandmark) : Prop :=
  isFingerExtended landmarks INDEX_FINGER_TIP INDEX_FINGER_PIP ∧
    ¬isFingerExtended landmarks MIDDLE_FINGER_TIP MIDDLE_FINGER_PIP ∧
    ¬isFingerExtended landmarks RING_FINGER_TIP (RING_FINGER_TIP - 2)

instance (landmarks : List HandLandmark) : Decidable (isDrawingGesture landmarks) :=
  inferInstanceAs (Decidable (_ ∧ _))

/-- isErasingGesture: all four fingers not extended. -/
def isErasingGesture (landmarks : List HandLandmark) : Prop :=
  ¬isFingerExtended landmarks INDEX_FINGER_TIP INDEX_FINGER_PIP ∧
    ¬isFingerExtended landmarks MIDDLE_FINGER_TIP MIDDLE_FINGER_PIP ∧
    ¬isFingerExtended landmarks RING_FINGER_TIP (RING_FINGER_TIP - 2) ∧
    ¬isFingerExtended landmarks PINKY_TIP (PINKY_TIP - 2)

instance (landmarks : List HandLandmark) : Decidable (isErasingGesture landmarks) :=
  inferInstanceAs (Decidable (_ ∧ _))

/-- isMenuGesture: all four fingers extended. -/
def isMenuGesture (landmarks : List HandLandmark) : Prop :=
  isFingerExtended landmarks INDEX_FINGER_TIP INDEX_FINGER_PIP ∧
    isFingerExtended landmarks MIDDLE_FINGER_TIP MIDDLE_FINGER_PIP ∧
    isFingerExtended landmarks RING_FINGER_TIP (RING_FINGER_TIP - 2) ∧
    isFingerExtended landmarks PINKY_TIP (PINKY_TIP - 2)

instance (landmarks : List HandLandmark) : Decidable (isMenuGesture landmarks) :=
  inferInstanceAs (Decidable (_ ∧ _))

/-- isLineGesture: index and middle extended, ring and pinky not extended. -/
def isLineGesture (landmarks : List HandLandmark) : Prop :=
  isFingerExtended landmarks INDEX_FINGER_TIP INDEX_FINGER_PIP ∧
    isFingerExtended landmarks MIDDLE_FINGER_TIP MIDDLE_FINGER_PIP ∧
    ¬isFingerExtended landmarks RING_FINGER_TIP (RING_FINGER_TIP - 2) ∧
    ¬isFingerExtended landmarks PINKY_TIP (PINKY_TIP - 2)

instance (landmarks : List HandLandmark) : Decidable (isLineGesture landmarks) :=
  inferInstanceAs (Decidable (_ ∧ _))

/-- isCircleGesture: thumb tip and index tip closer than 0.05 and middle
extended (squared form of thumbIndexDistance < 0.05). -/
def isCircleGesture (landmarks : List HandLandmark) : Prop :=
  calculateDistanceSq (lmAt landmarks THUMB_TIP) (lmAt landmarks INDEX_FINGER_TIP) <
      1 / 400 ∧
    isFingerExtended landmarks MIDDLE_FINGER_TIP MIDDLE_FINGER_PIP

instance (landmarks : List HandLandmark) : Decidable (isCircleGesture landmarks) :=
  inferInstanceAs (Decidable (_ ∧ _))

/-- isRectangleGesture: thumb tip above its preceding joint, and index,
middle and ring not extended. -/
def isRectangleGesture (landmarks : List HandLandmark) : Prop :=
  (lmAt landmarks THUMB_TIP).y < (lmAt landmarks (THUMB_TIP - 1)).y ∧
    ¬isFingerExtended landmarks INDEX_FINGER_TIP INDEX_FINGER_PIP ∧
    ¬isFingerExtended landmarks MIDDLE_FINGER_TIP MIDDLE_FINGER_PIP ∧
    ¬isFingerExtended landmarks RING_FINGER_TIP (RING_FINGER_TIP - 2)

instance (landmarks : List HandLandmark) : Decidable (isRectangleGesture landmarks) :=
  inferInstanceAs (Decidable (_ ∧ _))

/-- The mirrored cursor position (x flipped, y kept) derived from the index
fingertip, recognizeGesture lines 112-118. -/
def cursorPosition (landmarks : List HandLandmark) : Point2D :=
  ⟨1 - (lmAt landmarks INDEX_FINGER_TIP).x, (lmAt landmarks INDEX_FINGER_TIP).y⟩

/-- recognizeGesture: guard on fewer than 21 landmarks, then the pose
predicates in source order, first match wins.  The source also tests
!landmarks for a null argument; a Lean list is never null. -/
def recognizeGesture (landmarks : List HandLandmark) : GestureResult :=
  if landmarks.length < 21 then ⟨GestureType.none, ⟨0, 0⟩, 0⟩
  else if isLineGesture landmarks then ⟨GestureType.line, cursorPosition landmarks, 0.85⟩
  else if isCircleGesture landmarks then ⟨GestureType.circle, cursorPosition landmarks, 0.8⟩
  else if isRectangleGesture landmarks then
    ⟨GestureType.rectangle, cursorPosition landmarks, 0.8⟩
  else if isDrawingGesture landmarks then ⟨GestureType.draw, cursorPosition landmarks, 0.8⟩
  else if isErasingGesture landmarks then ⟨GestureType.erase, cursorPosition landmarks, 0.7⟩
  else if isMenuGesture landmarks then ⟨GestureType.menu, cursorPosition landmarks, 0.9⟩
  else ⟨GestureType.none, cursorPosition landmarks, 0⟩

/-! ## ShapeRecognizer: trajectory buffer and shape fitter -/

/-- interface TrackPoint; the millisecond timestamp is modelled as a natural
number passed explicitly wherever the source calls Date.now(). -/
structure TrackPoint where
  x : ℚ
  y : ℚ
  timestamp : ℕ
deriving DecidableEq

def maxTrackPoints : ℕ := 50

def minPointsForRecognition : ℕ := 10

/-- addPoint on the buffer: push a TrackPoint, then shift out the oldest
entry when the buffer exceeds capacity. -/
def addPoint (trackPoints : List TrackPoint) (point : Point2D) (now : ℕ) :
    List TrackPoint :=
  let pushed := trackPoints ++ [⟨point.x, point.y, now⟩]
  if maxTrackPoints < pushed.length then pushed.tail else pushed

/-- getTrackPoints returns a fresh copy of the buffer; under value semantics
the copy is the buffer itself. -/
def getTrackPoints (trackPoints : List TrackPoint) : List TrackPoint :=
  trackPoints

/-- The shape tag of a fit result. -/
inductive ShapeType where
  | line
  | circle
  | rectangle
  | none
deriving DecidableEq

/-- The shape-dependent points payload of a fit result (the optional points
field of the source's return type); stop stands for the source's end field,
a reserved word here. -/
inductive ShapePayload where
  | line (start stop : TrackPoint)
  | circle (center : TrackPoint) (radius : ℝ)
  | rectangle (topLeft bottomRight : TrackPoint)

/-- The result record of recognizeShape and the three detectors. -/
structure ShapeResult where
  shape : ShapeType
  confidence : ℝ
  points : Option ShapePayload

/-- pointToLineDistance: distance from a point to the segment between
lineStart and lineEnd, by clamped parametric projection.  All coordinate
arithmetic is rational; only the final square root is real. -/
noncomputable def pointToLineDistance (point lineStart lineEnd : TrackPoint) : ℝ :=
  let A := point.x - lineStart.x
  let B := point.y - lineStart.y
  let C := lineEnd.x - lineStart.x
  let D := lineEnd.y - lineStart.y
  let dot := A * C + B * D
  let lenSq := C * C + D * D
  if lenSq = 0 then Real.sqrt ((A * A + B * B : ℚ) : ℝ)
  else
    let param := dot / lenSq
    let xx := if param < 0 then lineStart.x
      else if param > 1 then lineEnd.x
      else lineStart.x + param * C
    let yy := if param < 0 then lineStart.y
      else if param > 1 then lineEnd.y
      else lineStart.y + param * D
    let dx := point.x - xx
    let dy := point.y - yy
    Real.sqrt ((dx * dx + dy * dy : ℚ) : ℝ)

/-- detectLine: endpoints are the first and last buffered points; the mean
clamped distance of the interior points (loop indices 1 to length - 2) to
that segment scores the fit, and fits on segments not longer than 0.1 are
zeroed. -/
noncomputable def detectLine (trackPoints : List TrackPoint) : ShapeResult :=
  let start := trackPoints.getD 0 ⟨0, 0, 0⟩
  let stop := trackPoints.getD (trackPoints.length - 1) ⟨0, 0, 0⟩
  let lineLength : ℝ := Real.sqrt
    (((stop.x - start.x) * (stop.x - start.x) +
      (stop.y - start.y) * (stop.y - start.y) : ℚ) : ℝ)
  let interior := (trackPoints.drop 1).dropLast
  let totalDeviation : ℝ := (interior.map fun p => pointToLineDistance p start stop).sum
  let avgDeviation : ℝ := totalDeviation / ((trackPoints.length : ℝ) - 2)
  let confidence : ℝ := max 0 (1 - avgDeviation * 10)
  ⟨ShapeType.line, if lineLength > 0.1 then confidence else 0,
    some (ShapePayload.line start stop)⟩

/-- detectCircle: centroid centre, mean distance to the centre as radius,
mean absolute radius deviation as score; degenerate circles of average
radius at most 0.05 are zeroed.  The divisions by the length are 0/0 for an
empty buffer where JavaScript produces NaN; recognizeShape only calls this
beneath its minimum-length guard. -/
noncomputable def detectCircle (trackPoints : List TrackPoint) (now : ℕ) : ShapeResult :=
  let centerX : ℚ := (trackPoints.map TrackPoint.x).sum / (trackPoints.length : ℚ)
  let centerY : ℚ := (trackPoints.map TrackPoint.y).sum / (trackPoints.length : ℚ)
  let center : TrackPoint := ⟨centerX, centerY, now⟩
  let radius : TrackPoint → ℝ := fun p =>
    Real.sqrt (((p.x - centerX) * (p.x - centerX) + (p.y - centerY) * (p.y - centerY) : ℚ) : ℝ)
  let avgRadius : ℝ := (trackPoints.map radius).sum / (trackPoints.length : ℝ)
  let radiusDeviation : ℝ := (trackPoints.map fun p => |radius p - avgRadius|).sum
  let avgDeviation : ℝ := radiusDeviation / (trackPoints.length : ℝ)
  let confidence : ℝ := max 0 (1 - avgDeviation * 15)
  ⟨ShapeType.circle, if avgRadius > 0.05 then confidence else 0,
    some (ShapePayload.circle center avgRadius)⟩

/-- detectRectangle: bounding box of the buffer, share of points within
tolerance 0.05 of one of its four edges times the box aspect ratio; boxes
with a side not longer than 0.1 are zeroed.  The fold over min and max
starts from infinities in the source and equals the list minima and maxima
on the nonempty buffers recognizeShape passes (0 is the Lean default for
the unreached empty case); for width = height = 0 the aspect ratio is NaN
in JavaScript and 0 here, both erased by the size guard. -/
noncomputable def detectRectangle (trackPoints : List TrackPoint) (now : ℕ) : ShapeResult :=
  let minX : ℚ := ((trackPoints.map TrackPoint.x).min?).getD 0
  let minY : ℚ := ((trackPoints.map TrackPoint.y).min?).getD 0
  let maxX : ℚ := ((trackPoints.map TrackPoint.x).max?).getD 0
  let maxY : ℚ := ((trackPoints.map TrackPoint.y).max?).getD 0
  let width := maxX - minX
  let height := maxY - minY
  let tolerance : ℚ := 0.05
  let edgePoints : ℕ := trackPoints.countP fun p =>
    decide (|p.x - minX| < tolerance) || decide (|p.x - maxX| < tolerance) ||
      decide (|p.y - minY| < tolerance) || decide (|p.y - maxY| < tolerance)
  let edgeRatio : ℚ := (edgePoints : ℚ) / (trackPoints.length : ℚ)
  let aspectRatio : ℚ := min width height / max width height
  let confidence : ℚ := edgeRatio * aspectRatio
  ⟨ShapeType.rectangle,
    if width > 0.1 ∧ height > 0.1 then (confidence : ℝ) else 0,
    some (ShapePayload.rectangle ⟨minX, minY, now⟩ ⟨maxX, maxY, now⟩)⟩

/-- recognizeShape: minimum-data guard, then the three detectors in source
order with their thresholds; the first fit whose confidence clears its
threshold is returned. -/
noncomputable def recognizeShape (trackPoints : List TrackPoint) (now : ℕ) : ShapeResult :=
  if trackPoints.length < minPointsForRecognition then ⟨ShapeType.none, 0, Option.none⟩
  else
    let lineResult := detectLine trackPoints
    if lineResult.confidence > 0.7 then lineResult
    else
      let circleResult := detectCircle trackPoints now
      if circleResult.confidence > 0.6 then circleResult
      else
        let rectangleResult := detectRectangle trackPoints now
        if rectangleResult.confidence > 0.6 then rectangleResult
        else ⟨ShapeType.none, 0, Option.none⟩

/-- Restatement of the fitting cascade in the spec's own terms: candidates
in fixed priority order paired with their thresholds, the first candidate
clearing its threshold wins, and none of the later scores can affect an
earlier win. -/
noncomputable def recognizeShapeSpec (trackPoints : List TrackPoint) (now : ℕ) :
    ShapeResult :=
  let candidates : List (ShapeResult × ℝ) :=
    [(detectLine trackPoints, 0.7), (detectCircle trackPoints now, 0.6),
      (detectRectangle trackPoints now, 0.6)]
  match candidates.find? fun c => decide (c.2 < c.1.confidence) with
  | some c => c.1
  | Option.none => ⟨ShapeType.none, 0, Option.none⟩

/-- Eleven sample points on the segment from (0.1, 0.1) to (0.8, 0.1). -/
def linePts : List TrackPoint :=
  [⟨0.1, 0.1, 0⟩, ⟨0.17, 0.1, 1⟩, ⟨0.24, 0.1, 2⟩, ⟨0.31, 0.1, 3⟩, ⟨0.38, 0.1, 4⟩,
    ⟨0.45, 0.1, 5⟩, ⟨0.52, 0.1, 6⟩, ⟨0.59, 0.1, 7⟩, ⟨0.66, 0.1, 8⟩, ⟨0.73, 0.1, 9⟩,
    ⟨0.8, 0.1, 10⟩]

/-- The TrackPoint a (point, timestamp) input turns into when pushed. -/
def toTrackPoint (pt : Point2D × ℕ) : TrackPoint :=
  ⟨pt.1.x, pt.1.y, pt.2⟩

/-- Feeding a whole list of (point, timestamp) inputs to addPoint starting
from the empty buffer. -/
def addAllPoints (inputs : List (Point2D × ℕ)) : List TrackPoint :=
  inputs.foldl (fun buf pt => addPoint buf pt.1 pt.2) []

/-- Sixty inputs with distinct coordinates and timestamps. -/
def sixtyInputs : List (Point2D × ℕ) :=
  (List.range 60).map fun i : ℕ => ((⟨(i : ℚ), 0⟩ : Point2D), i)

/-! ## GestureStabilizer -/

def historySize : ℕ := 5

def confidenceThreshold : ℚ := 0.6

/-- The history window after pushing a raw result: push, then shift out the
oldest entry when the window exceeds historySize. -/
def stabWindow (history : List GestureResult) (gesture : GestureResult) :
    List GestureResult :=
  let pushed := history ++ [gesture]
  if historySize < pushed.length then pushed.tail else pushed

/-- The kinds of a window, oldest first. -/
def windowTypes (window : List GestureResult) : List GestureType :=
  window.map GestureResult.type

/-- Occurrences of a kind in the window: the tally value gestureCount[kind]. -/
def cnt (window : List GestureResult) (k : GestureType) : ℕ :=
  (windowTypes window).count k

/-- The distinct kinds of a list in first-occurrence order: the key order of
the source's gestureCount object (non-numeric string keys enumerate in
insertion order). -/
def firstKeys : List GestureType → List GestureType
  | [] => []
  | t :: ts => t :: (firstKeys ts).filter fun k => decide (k ≠ t)

/-- The tally in key-insertion order: Object.entries(gestureCount). -/
def tally (window : List GestureResult) : List (GestureType × ℕ) :=
  (firstKeys (windowTypes window)).map fun k => (k, cnt window k)

/-- Entry 0 of the descending sort of the tally.  Array.prototype.sort with
comparator (a, b) => b - a is a stable descending sort, so entry 0 is the
first entry of maximal count in key-insertion order, which this fold
computes directly; undefined (no entry) becomes Option.none. -/
def pickBest : List (GestureType × ℕ) → Option (GestureType × ℕ)
  | [] => Option.none
  | e :: es => some (es.foldl (fun best x => if best.2 < x.2 then x else best) e)

/-- addGesture: push into the window, tally the kinds, and when the count of
the most frequent kind reaches ceil(historySize * confidenceThreshold),
emit it with confidence count / historySize and the position of the most
recent entry of the window; otherwise emit none with confidence 0 at the
raw position.  Returns the new window with the emitted result. -/
def addGesture (history : List GestureResult) (gesture : GestureResult) :
    List GestureResult × GestureResult :=
  let window := stabWindow history gesture
  (window,
    match pickBest (tally window) with
    | some best =>
        if Nat.ceil ((historySize : ℚ) * confidenceThreshold) ≤ best.2 then
          ⟨best.1, (window.getLastD default).position, (best.2 : ℚ) / (historySize : ℚ)⟩
        else ⟨GestureType.none, gesture.position, 0⟩
    | Option.none => ⟨GestureType.none, gesture.position, 0⟩)

/-- Running the stabilizer over raw results from an empty window, returning
the last emitted result. -/
def runStabilizer (inputs : List GestureResult) : GestureResult :=
  (inputs.foldl (fun acc g => addGesture acc.1 g) ([], default)).2

/-- Five identical draw results. -/
def fiveDraws : List GestureResult :=
  List.replicate 5 ⟨GestureType.draw, ⟨0.5, 0.5⟩, 0.8⟩

/-- Five results of pairwise distinct kinds. -/
def fiveDistinct : List GestureResult :=
  [⟨GestureType.draw, ⟨0.1, 0.1⟩, 0.8⟩, ⟨GestureType.erase, ⟨0.2, 0.2⟩, 0.7⟩,
    ⟨GestureType.menu, ⟨0.3, 0.3⟩, 0.9⟩, ⟨GestureType.line, ⟨0.4, 0.4⟩, 0.85⟩,
    ⟨GestureType.circle, ⟨0.5, 0.5⟩, 0.8⟩]

/-- A draw observation at position (0.5, 0.5). -/
def drawRes : GestureResult := ⟨GestureType.draw, ⟨0.5, 0.5⟩, 0.8⟩

/-- An erase observation. -/
def eraseRes : GestureResult := ⟨GestureType.erase, ⟨0.2, 0.3⟩, 0.7⟩

/-! ## ShapeRecognizer instances as explicit state -/

/-- The mutable state of a ShapeRecognizer instance: its private
trackPoints array. -/
structure ShapeRecognizerState where
  trackPoints : List TrackPoint

/-- The addPoint method as a state transformer (it pushes and possibly
shifts this.trackPoints). -/
def methodAddPoint (st : ShapeRecognizerState) (point : Point2D) (now : ℕ) :
    ShapeRecognizerState :=
  ⟨addPoint st.trackPoints point now⟩

/-- The clearTrack method: this.trackPoints = []. -/
def methodClearTrack (_st : ShapeRecognizerState) : ShapeRecognizerState :=
  ⟨[]⟩

/-- The getTrackPoints method: a copy of this.trackPoints. -/
def methodGetTrackPoints (st : ShapeRecognizerState) : List TrackPoint :=
  getTrackPoints st.trackPoints

/-- The recognizeShape method as a state transformer.  Its body (with
detectLine, detectCircle, detectRectangle and pointToLineDistance) only
reads this.trackPoints - indexing, length and forEach traversals - and
contains no push, shift, splice or assignment to it, so the state passes
through unchanged. -/
noncomputable def methodRecognizeShape (st : ShapeRecognizerState) (now : ℕ) :
    ShapeResult × ShapeRecognizerState :=
  (recognizeShape st.trackPoints now, st)

/-! ## Theorems -/

/-- The line pose requires the middle finger extended while the draw pose
requires it not extended, so the two predicates can never hold together: the
priority ordering between them is never exercised. -/
theorem isLine_isDraw_incompatible (landmarks : List HandLandmark) :
    ¬(isLineGesture landmarks ∧ isDrawingGesture landmarks) := by
  rintro ⟨⟨-, hmid, -⟩, -, hmid', -⟩
  exact hmid' hmid

/-- Whenever the length guard passes, every branch of recognizeGesture
carries the mirrored index-fingertip position. -/
theorem recognizeGesture_position_of_le (landmarks : List HandLandmark)
    (h : 21 ≤ landmarks.length) :
    (recognizeGesture landmarks).position = cursorPosition landmarks := by
  have h21 : ¬landmarks.length < 21 := by omega
  unfold recognizeGesture
  rw [if_neg h21]
  split
  · rfl
  · split
    · rfl
    · split
      · rfl
      · split
        · rfl
        · split
          · rfl
          · split <;> rfl

/-- C1 (amended): any landmark list with fewer than 21 entries is rejected
with the all-zero none result; the guard in the source is length < 21, so
lists longer than 21 entries are processed normally. -/
theorem recognizeGesture_short (landmarks : List HandLandmark)
    (h : landmarks.length < 21) :
    recognizeGesture landmarks = ⟨GestureType.none, ⟨0, 0⟩, 0⟩ := by
  simp [recognizeGesture, if_pos h]

/-- Witness for recognizeGesture_short at the empty list. -/
theorem recognizeGesture_short_witness :
    ([] : List HandLandmark).length < 21 ∧
      recognizeGesture [] = ⟨GestureType.none, ⟨0, 0⟩, 0⟩ :=
  ⟨by decide, recognizeGesture_short [] (by decide)⟩

/-- C1 counterexample: a 22-entry landmark list (all entries at (0.3, 0.4))
is not mapped to the all-zero none result: the guard only rejects lists
shorter than 21 entries, and here the returned position is the mirrored
fingertip (0.7, 0.4). -/
theorem recognizeGesture_oversized_processed :
    recognizeGesture (List.replicate 22 ⟨0.3, 0.4, 0⟩) ≠
      ⟨GestureType.none, ⟨0, 0⟩, 0⟩ := by
  intro h
  have hpos := recognizeGesture_position_of_le (List.replicate 22 ⟨0.3, 0.4, 0⟩)
    (by simp)
  rw [h] at hpos
  have hx : (0 : ℚ) = 1 - 0.3 := congrArg Point2D.x hpos
  norm_num at hx

/-- C6: for every 21-entry landmark list, the position of the classifier's
result is the mirrored index fingertip (1 - x, y) of landmark 8, whatever
gesture kind is returned. -/
theorem recognizeGesture_position (landmarks : List HandLandmark)
    (h : landmarks.length = 21) :
    (recognizeGesture landmarks).position =
      ⟨1 - (lmAt landmarks INDEX_FINGER_TIP).x, (lmAt landmarks INDEX_FINGER_TIP).y⟩ :=
  recognizeGesture_position_of_le landmarks (by omega)

/-- Witness for recognizeGesture_position on a concrete 21-entry list. -/
theorem recognizeGesture_position_witness :
    (List.replicate 21 (⟨0.3, 0.4, 0⟩ : HandLandmark)).length = 21 ∧
      (recognizeGesture (List.replicate 21 ⟨0.3, 0.4, 0⟩)).position =
        ⟨1 - (lmAt (List.replicate 21 ⟨0.3, 0.4, 0⟩) INDEX_FINGER_TIP).x,
          (lmAt (List.replicate 21 ⟨0.3, 0.4, 0⟩) INDEX_FINGER_TIP).y⟩ :=
  ⟨by decide, recognizeGesture_position _ (by decide)⟩

/-- C3: fewer than 10 buffered points yield the zero none result whatever
the geometry of the points. -/
theorem recognizeShape_minimum_guard (trackPoints : List TrackPoint) (now : ℕ)
    (h : trackPoints.length < 10) :
    recognizeShape trackPoints now = ⟨ShapeType.none, 0, Option.none⟩ := by
  unfold recognizeShape
  rw [if_pos (by simpa [minPointsForRecognition] using h)]

/-- Witness for recognizeShape_minimum_guard: nine points lying exactly on
a line, a geometry the fitter would otherwise score perfectly. -/
theorem recognizeShape_minimum_guard_witness :
    ([⟨0.1, 0.1, 0⟩, ⟨0.2, 0.1, 1⟩, ⟨0.3, 0.1, 2⟩, ⟨0.4, 0.1, 3⟩, ⟨0.5, 0.1, 4⟩,
        ⟨0.6, 0.1, 5⟩, ⟨0.7, 0.1, 6⟩, ⟨0.8, 0.1, 7⟩, ⟨0.9, 0.1, 8⟩] :
      List TrackPoint).length < 10 ∧
      recognizeShape
        [⟨0.1, 0.1, 0⟩, ⟨0.2, 0.1, 1⟩, ⟨0.3, 0.1, 2⟩, ⟨0.4, 0.1, 3⟩, ⟨0.5, 0.1, 4⟩,
          ⟨0.6, 0.1, 5⟩, ⟨0.7, 0.1, 6⟩, ⟨0.8, 0.1, 7⟩, ⟨0.9, 0.1, 8⟩] 9 =
        ⟨ShapeType.none, 0, Option.none⟩ :=
  ⟨by decide, recognizeShape_minimum_guard _ 9 (by decide)⟩

/-- C4: with at least 10 buffered points, recognizeShape is exactly the
first-clearing-threshold cascade over line (0.7), circle (0.6) and
rectangle (0.6), in that order, falling back to the zero none result. -/
theorem recognizeShape_cascade (trackPoints : List TrackPoint) (now : ℕ)
    (h : 10 ≤ trackPoints.length) :
    recognizeShape trackPoints now = recognizeShapeSpec trackPoints now := by
  unfold recognizeShape recognizeShapeSpec
  rw [if_neg (by simp [minPointsForRecognition]; omega)]
  by_cases h1 : (detectLine trackPoints).confidence > 0.7
  · simp [List.find?, h1]
  · by_cases h2 : (detectCircle trackPoints now).confidence > 0.6
    · simp [List.find?, h1, h2]
    · by_cases h3 : (detectRectangle trackPoints now).confidence > 0.6
      · simp [List.find?, h1, h2, h3]
      · simp [List.find?, h1, h2, h3]

/-- Witness for recognizeShape_cascade on a concrete 10-point buffer. -/
theorem recognizeShape_cascade_witness :
    10 ≤ ([⟨0.1, 0.1, 0⟩, ⟨0.2, 0.2, 1⟩, ⟨0.3, 0.1, 2⟩, ⟨0.4, 0.2, 3⟩, ⟨0.5, 0.1, 4⟩,
        ⟨0.6, 0.2, 5⟩, ⟨0.7, 0.1, 6⟩, ⟨0.8, 0.2, 7⟩, ⟨0.9, 0.1, 8⟩, ⟨1, 0.2, 9⟩] :
      List TrackPoint).length ∧
      recognizeShape
        [⟨0.1, 0.1, 0⟩, ⟨0.2, 0.2, 1⟩, ⟨0.3, 0.1, 2⟩, ⟨0.4, 0.2, 3⟩, ⟨0.5, 0.1, 4⟩,
          ⟨0.6, 0.2, 5⟩, ⟨0.7, 0.1, 6⟩, ⟨0.8, 0.2, 7⟩, ⟨0.9, 0.1, 8⟩, ⟨1, 0.2, 9⟩] 10 =
      recognizeShapeSpec
        [⟨0.1, 0.1, 0⟩, ⟨0.2, 0.2, 1⟩, ⟨0.3, 0.1, 2⟩, ⟨0.4, 0.2, 3⟩, ⟨0.5, 0.1, 4⟩,
          ⟨0.6, 0.2, 5⟩, ⟨0.7, 0.1, 6⟩, ⟨0.8, 0.2, 7⟩, ⟨0.9, 0.1, 8⟩, ⟨1, 0.2, 9⟩] 10 :=
  ⟨by decide, recognizeShape_cascade _ 10 (by decide)⟩

/-- A point of the segment from s to e (parametrised by t in [0,1]) has
clamped point-to-segment distance 0, provided the segment is nondegenerate. -/
theorem pointToLineDistance_on_segment (p s e : TrackPoint) (t : ℚ)
    (hlen : (e.x - s.x) * (e.x - s.x) + (e.y - s.y) * (e.y - s.y) ≠ 0)
    (ht0 : 0 ≤ t) (ht1 : t ≤ 1)
    (hx : p.x = s.x + t * (e.x - s.x)) (hy : p.y = s.y + t * (e.y - s.y)) :
    pointToLineDistance p s e = 0 := by
  have hdot : (p.x - s.x) * (e.x - s.x) + (p.y - s.y) * (e.y - s.y) =
      t * ((e.x - s.x) * (e.x - s.x) + (e.y - s.y) * (e.y - s.y)) := by
    rw [hx, hy]; ring
  have hdx : p.x - (s.x + t * (e.x - s.x)) = 0 := by rw [hx]; ring
  have hdy : p.y - (s.y + t * (e.y - s.y)) = 0 := by rw [hy]; ring
  simp only [pointToLineDistance]
  rw [if_neg hlen, hdot, mul_div_cancel_right₀ _ hlen]
  simp only [if_neg (not_lt.2 ht0), if_neg (not_lt.2 ht1)]
  rw [hdx, hdy]
  norm_num

/-- detectLine on a buffer lying exactly on a nondegenerate segment between
its first and last points: every interior deviation vanishes, so the fit is
the segment with confidence exactly 1. -/
theorem detectLine_exact (pts : List TrackPoint) (s e : TrackPoint)
    (hs : pts.getD 0 ⟨0, 0, 0⟩ = s) (he : pts.getD (pts.length - 1) ⟨0, 0, 0⟩ = e)
    (hseg : 1 / 100 < (e.x - s.x) * (e.x - s.x) + (e.y - s.y) * (e.y - s.y))
    (hcol : ∀ p ∈ pts, ∃ t : ℚ, 0 ≤ t ∧ t ≤ 1 ∧
      p.x = s.x + t * (e.x - s.x) ∧ p.y = s.y + t * (e.y - s.y)) :
    detectLine pts = ⟨ShapeType.line, 1, some (ShapePayload.line s e)⟩ := by
  have hlen : (e.x - s.x) * (e.x - s.x) + (e.y - s.y) * (e.y - s.y) ≠ 0 :=
    (lt_trans (by norm_num) hseg).ne'
  have hsum : (((pts.drop 1).dropLast.map fun p => pointToLineDistance p s e)).sum = 0 := by
    refine List.sum_eq_zero fun x hx => ?_
    obtain ⟨p, hp, rfl⟩ := List.mem_map.1 hx
    obtain ⟨t, ht0, ht1, hpx, hpy⟩ :=
      hcol p (List.drop_subset 1 pts (List.mem_of_mem_dropLast hp))
    exact pointToLineDistance_on_segment p s e t hlen ht0 ht1 hpx hpy
  have hlL : (0.1 : ℝ) <
      Real.sqrt (((e.x - s.x) * (e.x - s.x) + (e.y - s.y) * (e.y - s.y) : ℚ) : ℝ) := by
    refine (Real.lt_sqrt (by norm_num)).2 ?_
    have : ((1 / 100 : ℚ) : ℝ) < (((e.x - s.x) * (e.x - s.x) +
        (e.y - s.y) * (e.y - s.y) : ℚ) : ℝ) := by exact_mod_cast hseg
    nlinarith
  simp only [detectLine, hs, he]
  rw [hsum, zero_div, if_pos hlL]
  norm_num

/-- C8: a buffer of more than 10 points lying exactly on a segment from its
first to its last point whose squared length exceeds 1/100 (length beyond
0.1) has all interior clamped deviations 0, a line fit of confidence
exactly 1, and recognizeShape returns that line fit with the first and last
buffered points as endpoints. -/
theorem recognizeShape_line_roundtrip (pts : List TrackPoint) (now : ℕ)
    (s e : TrackPoint)
    (hs : pts.getD 0 ⟨0, 0, 0⟩ = s) (he : pts.getD (pts.length - 1) ⟨0, 0, 0⟩ = e)
    (hlen : 10 < pts.length)
    (hseg : 1 / 100 < (e.x - s.x) * (e.x - s.x) + (e.y - s.y) * (e.y - s.y))
    (hcol : ∀ p ∈ pts, ∃ t : ℚ, 0 ≤ t ∧ t ≤ 1 ∧
      p.x = s.x + t * (e.x - s.x) ∧ p.y = s.y + t * (e.y - s.y)) :
    (∀ p ∈ (pts.drop 1).dropLast, pointToLineDistance p s e = 0) ∧
      (detectLine pts).confidence = 1 ∧
      recognizeShape pts now = ⟨ShapeType.line, 1, some (ShapePayload.line s e)⟩ := by
  have hlenSq : (e.x - s.x) * (e.x - s.x) + (e.y - s.y) * (e.y - s.y) ≠ 0 :=
    (lt_trans (by norm_num) hseg).ne'
  have hDL := detectLine_exact pts s e hs he hseg hcol
  refine ⟨?_, ?_, ?_⟩
  · intro p hp
    obtain ⟨t, ht0, ht1, hpx, hpy⟩ :=
      hcol p (List.drop_subset 1 pts (List.mem_of_mem_dropLast hp))
    exact pointToLineDistance_on_segment p s e t hlenSq ht0 ht1 hpx hpy
  · rw [hDL]
  · unfold recognizeShape
    rw [if_neg (by simp only [minPointsForRecognition]; omega)]
    simp only [hDL]
    norm_num

/-- Witness for recognizeShape_line_roundtrip on the eleven points of
linePts, with parameters t = 0, 0.1, ..., 1. -/
theorem recognizeShape_line_roundtrip_witness :
    (linePts.getD 0 ⟨0, 0, 0⟩ = ⟨0.1, 0.1, 0⟩ ∧
        linePts.getD (linePts.length - 1) ⟨0, 0, 0⟩ = ⟨0.8, 0.1, 10⟩ ∧
        10 < linePts.length ∧
        (1 / 100 : ℚ) < (0.8 - 0.1) * (0.8 - 0.1) + (0.1 - 0.1) * (0.1 - 0.1)) ∧
      (∀ p ∈ (linePts.drop 1).dropLast,
          pointToLineDistance p ⟨0.1, 0.1, 0⟩ ⟨0.8, 0.1, 10⟩ = 0) ∧
        (detectLine linePts).confidence = 1 ∧
        recognizeShape linePts 11 =
          ⟨ShapeType.line, 1, some (ShapePayload.line ⟨0.1, 0.1, 0⟩ ⟨0.8, 0.1, 10⟩)⟩ :=
  ⟨⟨rfl, rfl, by norm_num [linePts], by norm_num⟩,
    recognizeShape_line_roundtrip linePts 11 ⟨0.1, 0.1, 0⟩ ⟨0.8, 0.1, 10⟩ rfl rfl
      (by norm_num [linePts]) (by norm_num)
      (by
        intro p hp
        simp only [linePts, List.mem_cons, List.not_mem_nil, or_false] at hp
        rcases hp with rfl | rfl | rfl | rfl | rfl | rfl | rfl | rfl | rfl | rfl | rfl
        · exact ⟨0, by norm_num, by norm_num, by norm_num, by norm_num⟩
        · exact ⟨0.1, by norm_num, by norm_num, by norm_num, by norm_num⟩
        · exact ⟨0.2, by norm_num, by norm_num, by norm_num, by norm_num⟩
        · exact ⟨0.3, by norm_num, by norm_num, by norm_num, by norm_num⟩
        · exact ⟨0.4, by norm_num, by norm_num, by norm_num, by norm_num⟩
        · exact ⟨0.5, by norm_num, by norm_num, by norm_num, by norm_num⟩
        · exact ⟨0.6, by norm_num, by norm_num, by norm_num, by norm_num⟩
        · exact ⟨0.7, by norm_num, by norm_num, by norm_num, by norm_num⟩
        · exact ⟨0.8, by norm_num, by norm_num, by norm_num, by norm_num⟩
        · exact ⟨0.9, by norm_num, by norm_num, by norm_num, by norm_num⟩
        · exact ⟨1, by norm_num, by norm_num, by norm_num, by norm_num⟩)⟩

/-- After any sequence of adds from the empty buffer, the buffer is exactly
the suffix of the pushed TrackPoints past the first length - 50 of them. -/
theorem addAllPoints_eq_drop (inputs : List (Point2D × ℕ)) :
    addAllPoints inputs =
      (inputs.map toTrackPoint).drop (inputs.length - maxTrackPoints) := by
  induction inputs using List.reverseRecOn with
  | nil => rfl
  | append_singleton xs x ih =>
    rw [addAllPoints, List.foldl_append, List.foldl_cons, List.foldl_nil,
      ← addAllPoints, ih]
    have hpush : ((xs.map toTrackPoint).drop (xs.length - maxTrackPoints)) ++
          [(⟨x.1.x, x.1.y, x.2⟩ : TrackPoint)] =
        ((xs ++ [x]).map toTrackPoint).drop (xs.length - maxTrackPoints) := by
      rw [List.map_append, List.drop_append_eq_append_drop]
      have h0 : xs.length - maxTrackPoints - (xs.map toTrackPoint).length = 0 := by
        simp only [List.length_map]
        omega
      rw [h0]
      rfl
    simp only [addPoint]
    rcases le_or_lt maxTrackPoints xs.length with hge | hlt
    · rw [if_pos (by
        simp only [List.length_append, List.length_drop, List.length_map,
          List.length_cons, List.length_nil, maxTrackPoints] at *
        omega)]
      rw [hpush, List.tail_drop]
      congr 1
      simp only [List.length_append, List.length_cons, List.length_nil]
      omega
    · rw [if_neg (by
        simp only [List.length_append, List.length_drop, List.length_map,
          List.length_cons, List.length_nil, maxTrackPoints] at *
        omega)]
      rw [hpush]
      congr 1
      simp only [List.length_append, List.length_cons, List.length_nil]
      omega

/-- C7: the buffer never exceeds 50 points and eviction is FIFO: one add
keeps the bound, any run of adds from empty leaves exactly the most recent
min(length, 50) pushed points in insertion order, and after the 60 adds of
sixtyInputs the snapshot is exactly the last 50 of them, of length 50. -/
theorem trackBuffer_fifo (inputs : List (Point2D × ℕ)) :
    (∀ (buf : List TrackPoint) (p : Point2D) (ts : ℕ),
        buf.length ≤ maxTrackPoints → (addPoint buf p ts).length ≤ maxTrackPoints) ∧
      getTrackPoints (addAllPoints inputs) =
        (inputs.map toTrackPoint).drop (inputs.length - maxTrackPoints) ∧
      (getTrackPoints (addAllPoints inputs)).length = min inputs.length maxTrackPoints ∧
      (getTrackPoints (addAllPoints sixtyInputs)).length = 50 ∧
      getTrackPoints (addAllPoints sixtyInputs) = (sixtyInputs.map toTrackPoint).drop 10 := by
  have hsixty : sixtyInputs.length = 60 := by
    simp [sixtyInputs]
  refine ⟨?_, addAllPoints_eq_drop inputs, ?_, ?_, ?_⟩
  · intro buf p ts hle
    simp only [addPoint]
    split
    · rename_i hc
      simp only [List.length_tail, List.length_append, List.length_cons,
        List.length_nil] at *
      omega
    · rename_i hc
      simp only [List.length_append, List.length_cons, List.length_nil] at *
      omega
  · rw [getTrackPoints, addAllPoints_eq_drop inputs]
    simp only [List.length_drop, List.length_map]
    omega
  · rw [getTrackPoints, addAllPoints_eq_drop sixtyInputs]
    simp only [List.length_drop, List.length_map, hsixty, maxTrackPoints]
  · rw [getTrackPoints, addAllPoints_eq_drop sixtyInputs, hsixty]
    rfl

/-- The emission threshold ceil(5 * 0.6) evaluates to 3. -/
theorem threshold_eq : Nat.ceil ((historySize : ℚ) * confidenceThreshold) = 3 := by
  have h : ((historySize : ℚ) * confidenceThreshold) = 3 := by
    norm_num [historySize, confidenceThreshold]
  rw [h]
  simp

/-- The stabilizer window is never empty after a push. -/
theorem stabWindow_ne_nil (history : List GestureResult) (g : GestureResult) :
    stabWindow history g ≠ [] := by
  simp only [stabWindow]
  split
  · rename_i h
    cases history with
    | nil => simp [historySize] at h
    | cons a as => simp
  · simp

/-- The most recent entry of the window after a push is the pushed result. -/
theorem stabWindow_getLast (history : List GestureResult) (g : GestureResult) :
    (stabWindow history g).getLastD default = g := by
  simp only [stabWindow]
  split
  · rename_i h
    cases history with
    | nil => simp [historySize] at h
    | cons a as =>
      rw [List.cons_append, List.tail_cons]
      exact List.getLastD_concat _ _ _
  · exact List.getLastD_concat _ _ _

/-- The fold behind pickBest returns one of its candidates. -/
theorem pickFold_mem {α : Type} (e : α × ℕ) (es : List (α × ℕ)) :
    es.foldl (fun best x => if best.2 < x.2 then x else best) e ∈ e :: es := by
  induction es generalizing e with
  | nil => simp
  | cons x es ih =>
    rw [List.foldl_cons]
    rcases List.mem_cons.1 (ih (if e.2 < x.2 then x else e)) with h | h
    · rw [h]
      by_cases hc : e.2 < x.2 <;> simp [hc]
    · exact List.mem_cons.2 (Or.inr (List.mem_cons.2 (Or.inr h)))

/-- The fold behind pickBest returns a candidate of maximal count. -/
theorem pickFold_max {α : Type} (e : α × ℕ) (es : List (α × ℕ)) :
    ∀ y ∈ e :: es, y.2 ≤ (es.foldl (fun best x => if best.2 < x.2 then x else best) e).2 := by
  induction es generalizing e with
  | nil =>
    intro y hy
    simp only [List.mem_singleton] at hy
    rw [hy, List.foldl_nil]
  | cons x es ih =>
    intro y hy
    rw [List.foldl_cons]
    have hkeep : e.2 ≤ (if e.2 < x.2 then x else e).2 ∧ x.2 ≤ (if e.2 < x.2 then x else e).2 := by
      by_cases hc : e.2 < x.2 <;> simp [hc] <;> omega
    have hhead := ih (if e.2 < x.2 then x else e) _ (List.mem_cons_self _ _)
    rcases List.mem_cons.1 hy with rfl | hy'
    · exact le_trans hkeep.1 hhead
    · rcases List.mem_cons.1 hy' with rfl | hy''
      · exact le_trans hkeep.2 hhead
      · exact ih _ y (List.mem_cons.2 (Or.inr hy''))

/-- The fold behind pickBest returns the first candidate attaining the
maximal count (the stability of the sort). -/
theorem pickFold_first {α : Type} (e : α × ℕ) (es : List (α × ℕ)) :
    (e :: es).find?
        (fun y => decide (y.2 =
          (es.foldl (fun best x => if best.2 < x.2 then x else best) e).2)) =
      some (es.foldl (fun best x => if best.2 < x.2 then x else best) e) := by
  induction es generalizing e with
  | nil => simp [List.find?]
  | cons x es ih =>
    rw [List.foldl_cons]
    by_cases hc : e.2 < x.2
    · simp only [if_pos hc]
      have hxr := pickFold_max x es x (List.mem_cons_self _ _)
      have hne : ¬(e.2 =
          (es.foldl (fun best x => if best.2 < x.2 then x else best) x).2) := by omega
      rw [List.find?_cons_of_neg _ (by simpa using hne)]
      exact ih x
    · simp only [if_neg hc]
      have hih := ih e
      by_cases he : e.2 = (es.foldl (fun best x => if best.2 < x.2 then x else best) e).2
      · rw [List.find?_cons_of_pos _ (by simpa using he)]
        rw [List.find?_cons_of_pos _ (by simpa using he)] at hih
        exact hih
      · have her := pickFold_max e es e (List.mem_cons_self _ _)
        have hxne : ¬(x.2 =
            (es.foldl (fun best x => if best.2 < x.2 then x else best) e).2) := by omega
        rw [List.find?_cons_of_neg _ (by simpa using he),
          List.find?_cons_of_neg _ (by simpa using hxne)]
        rw [List.find?_cons_of_neg _ (by simpa using he)] at hih
        exact hih

/-- firstKeys keeps exactly the members. -/
theorem mem_firstKeys {l : List GestureType} {k : GestureType} :
    k ∈ firstKeys l ↔ k ∈ l := by
  induction l with
  | nil => simp [firstKeys]
  | cons t ts ih =>
    simp only [firstKeys, List.mem_cons, List.mem_filter, ih, decide_eq_true_eq]
    by_cases hk : k = t
    · simp [hk]
    · simp [hk]

/-- firstKeys lists keys in strictly increasing order of first occurrence. -/
theorem firstKeys_pairwise (l : List GestureType) :
    (firstKeys l).Pairwise fun a b => l.indexOf a < l.indexOf b := by
  induction l with
  | nil => simp [firstKeys]
  | cons t ts ih =>
    rw [firstKeys]
    refine List.Pairwise.cons ?_ ?_
    · intro b hb
      have hbne : b ≠ t := by simpa using List.of_mem_filter hb
      rw [List.indexOf_cons_self, List.indexOf_cons_ne _ hbne.symm]
      exact Nat.succ_pos _
    · refine (ih.filter _).imp_of_mem ?_
      intro a b ha hb hab
      have hane : a ≠ t := by simpa using List.of_mem_filter ha
      have hbne : b ≠ t := by simpa using List.of_mem_filter hb
      rw [List.indexOf_cons_ne _ hane.symm, List.indexOf_cons_ne _ hbne.symm]
      omega

/-- find? on a sorted list returns an entry no later than any other match. -/
theorem find?_earliest {α : Type} {R : α → α → Prop} {p : α → Bool} {l : List α} {a : α}
    (hsort : l.Pairwise R) (hfind : l.find? p = some a) :
    ∀ b ∈ l, p b = true → a = b ∨ R a b := by
  induction l with
  | nil => simp at hfind
  | cons x xs ih =>
    intro b hb hpb
    by_cases hx : p x = true
    · rw [List.find?_cons_of_pos _ hx] at hfind
      have hax : a = x := by injection hfind with h; exact h.symm
      rcases List.mem_cons.1 hb with rfl | hb'
      · exact Or.inl hax
      · right
        rw [hax]
        exact (List.pairwise_cons.1 hsort).1 b hb'
    · rw [List.find?_cons_of_neg _ hx] at hfind
      rcases List.mem_cons.1 hb with rfl | hb'
      · exact absurd hpb hx
      · exact ih (List.pairwise_cons.1 hsort).2 hfind b hb' hpb

/-- What the source's sort-then-take-entry-0 computes: on a nonempty window,
pickBest of the tally returns a kind of the window with its count; that
count is maximal over all kinds, and among the kinds attaining it the
returned one is the one whose first occurrence in the window is earliest. -/
theorem pickBest_tally_spec (w : List GestureResult) (hw : w ≠ []) :
    ∃ k c, pickBest (tally w) = some (k, c) ∧
      cnt w k = c ∧
      (∀ k', cnt w k' ≤ c) ∧
      ∀ k', cnt w k' = c →
        (windowTypes w).indexOf k ≤ (windowTypes w).indexOf k' := by
  obtain ⟨t0, ts, hkeys⟩ : ∃ t0 ts, firstKeys (windowTypes w) = t0 :: ts := by
    cases w with
    | nil => exact absurd rfl hw
    | cons a as => exact ⟨a.type, _, rfl⟩
  have htally : tally w =
      (fun k => (k, cnt w k)) t0 :: ts.map (fun k => (k, cnt w k)) := by
    rw [tally, hkeys, List.map_cons]
  have hpick : pickBest (tally w) =
      some ((ts.map (fun k => (k, cnt w k))).foldl
        (fun best x => if best.2 < x.2 then x else best)
        ((fun k => (k, cnt w k)) t0)) := by
    rw [htally, pickBest]
  set r := (ts.map (fun k => (k, cnt w k))).foldl
    (fun best x => if best.2 < x.2 then x else best) ((fun k => (k, cnt w k)) t0) with hr
  have hmem : r ∈ tally w := by rw [htally]; exact pickFold_mem _ _
  have hmax : ∀ y ∈ tally w, y.2 ≤ r.2 := by rw [htally]; exact pickFold_max _ _
  have hfind : (tally w).find? (fun y => decide (y.2 = r.2)) = some r := by
    rw [htally]; exact pickFold_first _ _
  obtain ⟨kbest, hkbestmem, hkbesteq⟩ := List.mem_map.1 (by rw [tally] at hmem; exact hmem)
  have hr1 : r.1 = kbest := by rw [← hkbesteq]
  have hr2 : r.2 = cnt w kbest := by rw [← hkbesteq]
  have hcovered : ∀ k', cnt w k' ≤ r.2 := by
    intro k'
    by_cases hmem' : k' ∈ windowTypes w
    · exact hmax _ (by
        rw [tally]
        exact List.mem_map.2 ⟨k', mem_firstKeys.2 hmem', rfl⟩)
    · rw [cnt, List.count_eq_zero.2 hmem']
      exact Nat.zero_le _
  refine ⟨kbest, r.2, by rw [hpick, ← hr1], hr2.symm, hcovered, ?_⟩
  intro k' hk'c
  have hkbestpos : 0 < cnt w kbest :=
    List.count_pos_iff.2 (mem_firstKeys.1 hkbestmem)
  have hk'mem : k' ∈ windowTypes w := by
    by_contra hc
    rw [cnt, List.count_eq_zero.2 hc] at hk'c
    omega
  have hmapfind := List.find?_map (fun k => (k, cnt w k)) (firstKeys (windowTypes w))
    (p := fun y => decide (y.2 = r.2))
  rw [tally] at hfind
  rw [hmapfind] at hfind
  obtain ⟨y, hy, hfy⟩ := Option.map_eq_some'.1 hfind
  have hykbest : y = kbest := by
    have := congrArg Prod.fst hfy
    simpa [hr1] using this
  subst hykbest
  have := find?_earliest (firstKeys_pairwise (windowTypes w)) hy k'
    (mem_firstKeys.2 hk'mem)
    (by simpa using hk'c)
  rcases this with rfl | hlt
  · exact le_refl _
  · exact hlt.le

/-- C2: after pushing the raw result, when some kind k is most frequent in
the window: if its count reaches 3 the emitted result carries a kind of
that same maximal count (hence k itself when k is the strict maximum),
confidence count / 5 and the raw result's position; below 3 the emitted
result is none with confidence 0 at the same position.  In particular five
identical draw feeds from empty emit draw with confidence 1 and five
distinct kinds emit none with confidence 0. -/
theorem stabilizer_majority (history : List GestureResult) (g : GestureResult)
    (k : GestureType)
    (hk : ∀ k', cnt (stabWindow history g) k' ≤ cnt (stabWindow history g) k) :
    (3 ≤ cnt (stabWindow history g) k →
        cnt (stabWindow history g) ((addGesture history g).2).type =
          cnt (stabWindow history g) k ∧
        ((addGesture history g).2).confidence =
          (cnt (stabWindow history g) k : ℚ) / 5 ∧
        ((addGesture history g).2).position = g.position ∧
        ((∀ k', k' ≠ k → cnt (stabWindow history g) k' < cnt (stabWindow history g) k) →
          ((addGesture history g).2).type = k)) ∧
      (cnt (stabWindow history g) k < 3 →
        (addGesture history g).2 = ⟨GestureType.none, g.position, 0⟩) ∧
      runStabilizer fiveDraws = ⟨GestureType.draw, ⟨0.5, 0.5⟩, 1⟩ ∧
      runStabilizer fiveDistinct = ⟨GestureType.none, ⟨0.5, 0.5⟩, 0⟩ := by
  obtain ⟨kb, cb, hpick, hcntb, hmaxb, hearliest⟩ :=
    pickBest_tally_spec (stabWindow history g) (stabWindow_ne_nil history g)
  have hceq : cb = cnt (stabWindow history g) k :=
    le_antisymm (hcntb ▸ hk kb) (hmaxb k)
  refine ⟨?_, ?_, ?_, ?_⟩
  · intro hthr
    have h3 : Nat.ceil ((historySize : ℚ) * confidenceThreshold) ≤ cb := by
      rw [threshold_eq]; omega
    simp only [addGesture, hpick, if_pos h3]
    refine ⟨by rw [hcntb, hceq], ?_, ?_, ?_⟩
    · rw [hceq]
      norm_num [historySize]
    · rw [stabWindow_getLast]
    · intro huniq
      by_contra hne
      have := huniq kb (fun h => hne (by simpa [addGesture, hpick, if_pos h3] using h))
      omega
  · intro hlt
    have h3 : ¬Nat.ceil ((historySize : ℚ) * confidenceThreshold) ≤ cb := by
      rw [threshold_eq]; omega
    simp only [addGesture, hpick, if_neg h3]
  · show (addGesture [drawRes, drawRes, drawRes, drawRes] drawRes).2 =
      ⟨GestureType.draw, ⟨0.5, 0.5⟩, 1⟩
    have hp5 : pickBest (tally (stabWindow [drawRes, drawRes, drawRes, drawRes] drawRes)) =
        some (GestureType.draw, 5) := rfl
    simp only [addGesture, hp5, threshold_eq]
    rw [if_pos (by norm_num)]
    rw [stabWindow_getLast]
    norm_num [historySize, drawRes, GestureResult.mk.injEq]
  · show (addGesture
        [⟨GestureType.draw, ⟨0.1, 0.1⟩, 0.8⟩, ⟨GestureType.erase, ⟨0.2, 0.2⟩, 0.7⟩,
          ⟨GestureType.menu, ⟨0.3, 0.3⟩, 0.9⟩, ⟨GestureType.line, ⟨0.4, 0.4⟩, 0.85⟩]
        ⟨GestureType.circle, ⟨0.5, 0.5⟩, 0.8⟩).2 = ⟨GestureType.none, ⟨0.5, 0.5⟩, 0⟩
    have hp1 : pickBest (tally (stabWindow
        [⟨GestureType.draw, ⟨0.1, 0.1⟩, 0.8⟩, ⟨GestureType.erase, ⟨0.2, 0.2⟩, 0.7⟩,
          ⟨GestureType.menu, ⟨0.3, 0.3⟩, 0.9⟩, ⟨GestureType.line, ⟨0.4, 0.4⟩, 0.85⟩]
        ⟨GestureType.circle, ⟨0.5, 0.5⟩, 0.8⟩)) = some (GestureType.draw, 1) := rfl
    simp only [addGesture, hp1, threshold_eq]
    rw [if_neg (by norm_num)]

/-- Witness for stabilizer_majority: two buffered draws and a third draw
pushed, with draw the most frequent kind. -/
theorem stabilizer_majority_witness :
    (∀ k', cnt (stabWindow [drawRes, drawRes] drawRes) k' ≤
        cnt (stabWindow [drawRes, drawRes] drawRes) GestureType.draw) ∧
      ((3 ≤ cnt (stabWindow [drawRes, drawRes] drawRes) GestureType.draw →
          cnt (stabWindow [drawRes, drawRes] drawRes)
              ((addGesture [drawRes, drawRes] drawRes).2).type =
            cnt (stabWindow [drawRes, drawRes] drawRes) GestureType.draw ∧
          ((addGesture [drawRes, drawRes] drawRes).2).confidence =
            (cnt (stabWindow [drawRes, drawRes] drawRes) GestureType.draw : ℚ) / 5 ∧
          ((addGesture [drawRes, drawRes] drawRes).2).position = drawRes.position ∧
          ((∀ k', k' ≠ GestureType.draw →
              cnt (stabWindow [drawRes, drawRes] drawRes) k' <
                cnt (stabWindow [drawRes, drawRes] drawRes) GestureType.draw) →
            ((addGesture [drawRes, drawRes] drawRes).2).type = GestureType.draw)) ∧
        (cnt (stabWindow [drawRes, drawRes] drawRes) GestureType.draw < 3 →
          (addGesture [drawRes, drawRes] drawRes).2 =
            ⟨GestureType.none, drawRes.position, 0⟩) ∧
        runStabilizer fiveDraws = ⟨GestureType.draw, ⟨0.5, 0.5⟩, 1⟩ ∧
        runStabilizer fiveDistinct = ⟨GestureType.none, ⟨0.5, 0.5⟩, 0⟩) :=
  ⟨by decide, stabilizer_majority [drawRes, drawRes] drawRes GestureType.draw (by decide)⟩

/-- C9: when at least two kinds are tied for the maximal count of the
window and the count reaches the threshold 3, the emitted kind attains the
maximal count and its first occurrence in the window is no later than that
of any kind attaining the maximal count: the tally's key-insertion order,
preserved by the stable descending sort, breaks the tie. -/
theorem stabilizer_tiebreak (history : List GestureResult) (g : GestureResult)
    (k₁ k₂ : GestureType) (m : ℕ)
    (_hne : k₁ ≠ k₂)
    (h₁ : cnt (stabWindow history g) k₁ = m)
    (h₂ : cnt (stabWindow history g) k₂ = m)
    (hmax : ∀ k', cnt (stabWindow history g) k' ≤ m)
    (hthr : 3 ≤ m) :
    cnt (stabWindow history g) ((addGesture history g).2).type = m ∧
      ∀ k', cnt (stabWindow history g) k' = m →
        (windowTypes (stabWindow history g)).indexOf ((addGesture history g).2).type ≤
          (windowTypes (stabWindow history g)).indexOf k' := by
  obtain ⟨kb, cb, hpick, hcntb, hmaxb, hearliest⟩ :=
    pickBest_tally_spec (stabWindow history g) (stabWindow_ne_nil history g)
  have hceq : cb = m := le_antisymm (hcntb ▸ hmax kb) (h₁ ▸ hmaxb k₁)
  have h3 : Nat.ceil ((historySize : ℚ) * confidenceThreshold) ≤ cb := by
    rw [threshold_eq]; omega
  have htype : ((addGesture history g).2).type = kb := by
    simp only [addGesture, hpick]
    rw [if_pos h3]
  rw [htype]
  exact ⟨by rw [hcntb, hceq], fun k' hk' => hearliest k' (by rw [hk', hceq])⟩

/-- Witness for stabilizer_tiebreak: a six-entry window where draw and
erase are tied at count 3, reachable here because addGesture accepts any
prior history list. -/
theorem stabilizer_tiebreak_witness :
    (GestureType.draw ≠ GestureType.erase ∧
        cnt (stabWindow [drawRes, drawRes, drawRes, eraseRes, eraseRes, eraseRes] drawRes)
            GestureType.draw = 3 ∧
        cnt (stabWindow [drawRes, drawRes, drawRes, eraseRes, eraseRes, eraseRes] drawRes)
            GestureType.erase = 3 ∧
        (∀ k', cnt (stabWindow [drawRes, drawRes, drawRes, eraseRes, eraseRes, eraseRes]
            drawRes) k' ≤ 3) ∧
        3 ≤ 3) ∧
      cnt (stabWindow [drawRes, drawRes, drawRes, eraseRes, eraseRes, eraseRes] drawRes)
          ((addGesture [drawRes, drawRes, drawRes, eraseRes, eraseRes, eraseRes]
            drawRes).2).type = 3 ∧
        ∀ k', cnt (stabWindow [drawRes, drawRes, drawRes, eraseRes, eraseRes, eraseRes]
            drawRes) k' = 3 →
          (windowTypes (stabWindow [drawRes, drawRes, drawRes, eraseRes, eraseRes, eraseRes]
              drawRes)).indexOf
              ((addGesture [drawRes, drawRes, drawRes, eraseRes, eraseRes, eraseRes]
                drawRes).2).type ≤
            (windowTypes (stabWindow [drawRes, drawRes, drawRes, eraseRes, eraseRes, eraseRes]
              drawRes)).indexOf k' :=
  ⟨⟨by decide, by decide, by decide, by decide, by decide⟩,
    stabilizer_tiebreak [drawRes, drawRes, drawRes, eraseRes, eraseRes, eraseRes] drawRes
      GestureType.draw GestureType.erase 3 (by decide) (by decide) (by decide) (by decide)
      (by decide)⟩

/-- C10: recognizeShape leaves the trajectory buffer untouched: the state
after a call is the state before it, the snapshot of buffered points is
unchanged, and the returned fit is a pure function of that snapshot. -/
theorem methodRecognizeShape_readonly (st : ShapeRecognizerState) (now : ℕ) :
    (methodRecognizeShape st now).2 = st ∧
      methodGetTrackPoints (methodRecognizeShape st now).2 = methodGetTrackPoints st ∧
      (methodRecognizeShape st now).1 = recognizeShape (methodGetTrackPoints st) now :=
  ⟨rfl, rfl, rfl⟩

end AirCanvas
